import Mathlib

set_option linter.unusedVariables false

/-!
Verification development for the credential-validation orchestrator.

The embedding follows the TypeScript sources:
  * `Validator.validate`, `Validator.getTokenType`, `Validator.setValidationResult`
    (src/lib/Api/Validator.ts),
  * `BaseIdTokenValidation.validate` (src/lib/input_validation/BaseIdTokenValidation.ts),
  * `DidValidation.validate` (src/unnamed/part_000).

External collaborators (the deserialization / resolution / signature / time /
scope delegates and the per-type token validators) are out of scope of the
repository core and are modelled as explicit function parameters, as the spec
directs.  `ValidationQueue`, `QueueItem` and the `ClaimToken` lifecycle are not
part of the given sources; they are modelled from the spec (see the doc
comments below).
-/

/-- Token type tags; the five variants of the source enum `TokenType`
(src imports it from VerifiableCredential/ClaimToken).  The enum's string
values are modelled by `typeNameStr` below. -/
inductive TokenType where
  | idToken
  | verifiableCredential
  | verifiablePresentation
  | siop
  | selfIssued
  deriving Repr, DecidableEq

/-- Decoded token payload.  The source inspects `payloadObject.vc`, `.vp` and
`.claims` with JavaScript truthiness, so those fields are modelled as Booleans
meaning "the field is present and truthy".  `aud` models the audience field
read by `Validator.setValidationResult` (`decodedToken.aud`), a string that may
be absent. -/
structure Payload where
  vc : Bool := false
  vp : Bool := false
  claims : Bool := false
  aud : Option String := none
  deriving Repr, DecidableEq

/-- The aggregated result record `IValidationResult` built by
`Validator.setValidationResult`. -/
structure IValidationResult where
  did : String
  verifiableCredentials : List (Option Payload)
  idTokens : List (Option Payload)
  selfIssued : Option Payload
  deriving Repr, DecidableEq

/-- The response/context record `IValidationResponse` threaded through every
step.  Optional fields model fields that may be `undefined` in the source. -/
structure ValidationResponse where
  result : Bool
  status : Nat
  detailedError : Option String := none
  did : Option String := none
  payloadObject : Option Payload := none
  didSignature : Option String := none
  validationResult : Option IValidationResult := none
  deriving Repr, DecidableEq

/-- A tagged token.  The constructor calls in `Validator.getTokenType`
(`new ClaimToken(type, token, '')`) create a token with no decoded payload;
per the spec the decoded payload is attached only on successful validation. -/
structure ClaimToken where
  type : TokenType
  rawToken : String
  decodedToken : Option Payload := none
  deriving Repr, DecidableEq

/-- JavaScript truthiness of a string that may be `undefined`: `undefined` and
the empty string are falsy. -/
def jsTruthy : Option String → Bool
  | none => false
  | some s => !(s == "")

/-- Initial response `{result: true, status: 200}` used by
`Validator.getTokenType` and `DidValidation.validate`. -/
def initOkResponse : ValidationResponse := { result := true, status := 200 }

/-- Initial response `{result: true, detailedError: '', status: 200}` used by
`BaseIdTokenValidation.validate`. -/
def idTokenInitResponse : ValidationResponse :=
  { result := true, detailedError := some "", status := 200 }

/-- Delegate bundle consumed by `BaseIdTokenValidation.validate` (drawn from
its `IValidationOptions` plus the abstract `downloadConfigurationAndValidate`
hook). -/
structure IdTokenDelegates where
  getTokenObject : ValidationResponse → String → ValidationResponse
  downloadConfigurationAndValidate : ValidationResponse → ClaimToken → ValidationResponse
  checkTimeValidityOnToken : ValidationResponse → ValidationResponse
  checkScopeValidityOnIdToken : ValidationResponse → ValidationResponse

/-- Embedding of `BaseIdTokenValidation.validate`
(src/lib/input_validation/BaseIdTokenValidation.ts, lines 27-61): deserialize,
download configuration and validate, check time validity, check scope
validity; after every step a failed response is returned immediately. -/
def BaseIdTokenValidation.validate (d : IdTokenDelegates) (idToken : ClaimToken) : ValidationResponse :=
  let v1 := d.getTokenObject idTokenInitResponse idToken.rawToken
  if !v1.result then v1
  else
    let v2 := d.downloadConfigurationAndValidate v1 idToken
    if !v2.result then v2
    else
      let v3 := d.checkTimeValidityOnToken v2
      if !v3.result then v3
      else
        let v4 := d.checkScopeValidityOnIdToken v3
        if !v4.result then v4
        else v4

/-- Delegate bundle consumed by `DidValidation.validate` (drawn from its
`IValidationOptions`).  `validateDidSignature` receives the response together
with the response's `didSignature` field, as in the source. -/
structure DidDelegates where
  getTokenObject : ValidationResponse → String → ValidationResponse
  resolveDidAndGetKeys : ValidationResponse → ValidationResponse
  validateDidSignature : ValidationResponse → Option String → ValidationResponse
  checkTimeValidityOnToken : ValidationResponse → ValidationResponse
  checkScopeValidityOnToken : ValidationResponse → ValidationResponse

/-- The literal failure response built by `DidValidation.validate` when the
deserialized token carries no DID (src/unnamed/part_000, lines 42-48). -/
def missingDidResponse : ValidationResponse :=
  { result := false, detailedError := some "The input token does not contain the DID", status := 403 }

/-- Embedding of `DidValidation.validate` (src/unnamed/part_000, lines 29-76):
deserialize, check the DID is present (JavaScript truthiness of
`validationResponse.did`), resolve DID and get keys, validate the DID
signature, check time validity, check scope validity; each failed response is
returned immediately. -/
def DidValidation.validate (d : DidDelegates) (token : String) : ValidationResponse :=
  let v1 := d.getTokenObject initOkResponse token
  if !v1.result then v1
  else if !(jsTruthy v1.did) then missingDidResponse
  else
    let v2 := d.resolveDidAndGetKeys v1
    if !v2.result then v2
    else
      let v3 := d.validateDidSignature v2 v2.didSignature
      if !v3.result then v3
      else
        let v4 := d.checkTimeValidityOnToken v3
        if !v4.result then v4
        else
          let v5 := d.checkScopeValidityOnToken v4
          if !v5.result then v5
          else v5

/-- Default payload used to model the non-null assertion
`validationResponse.payloadObject!` in `Validator.getTokenType`: the source
asserts the payload is present after a successful tolerant deserialization. -/
def emptyPayload : Payload := {}

/-- Embedding of the classifier `Validator.getTokenType`
(src/lib/Api/Validator.ts, lines 148-177).  `selfDel` is the tolerant
`getSelfIssuedTokenObjectDelegate`, `strictDel` the strict
`getTokenObjectDelegate`.  When the tolerant deserialization fails the source
returns `[validationResponse, {} as ClaimToken]`; the empty cast object (whose
`type` is `undefined`) is modelled by `none`. -/
def Validator.getTokenType (selfDel strictDel : ValidationResponse → String → ValidationResponse)
    (token : String) : ValidationResponse × Option ClaimToken :=
  let v1 := selfDel initOkResponse token
  if !v1.result then (v1, none)
  else
    let p := v1.payloadObject.getD emptyPayload
    if p.vc then (v1, some { type := TokenType.verifiableCredential, rawToken := token })
    else if p.vp then (v1, some { type := TokenType.verifiablePresentation, rawToken := token })
    else if p.claims then (v1, some { type := TokenType.siop, rawToken := token })
    else
      let v2 := strictDel v1 token
      if !v2.result && v2.status == 403 then (v2, some { type := TokenType.selfIssued, rawToken := token })
      else (v2, some { type := TokenType.idToken, rawToken := token })

/-- Modelled from the spec: `QueueItem` (spec section 3) — `ValidationQueue`
and `QueueItem` are code of this repository that is not under src/.  A raw
token awaiting validation, its `ClaimToken` once classified/validated (`none`
until then) and the response recorded for it by `setResult` (`none` until then;
an item is processed exactly when its response is recorded). -/
structure QueueItem where
  tokenToValidate : String
  validatedToken : Option ClaimToken := none
  validationResponse : Option ValidationResponse := none
  deriving Repr, DecidableEq

/-- Modelled from the spec: `ValidationQueue` (spec section 3), an append-only
ordered list of queue items. -/
structure ValidationQueue where
  items : List QueueItem
  deriving Repr, DecidableEq

/-- Modelled from the spec: `ValidationQueue.addToken` appends a new pending
item. -/
def ValidationQueue.addToken (q : ValidationQueue) (token : String) : ValidationQueue :=
  { items := q.items ++ [{ tokenToValidate := token }] }

/-- Index of the first element satisfying `p`. -/
def findFirstIdx {α : Type} (p : α → Bool) : List α → Option Nat
  | [] => none
  | a :: l => if p a then some 0 else (findFirstIdx p l).map (fun n => n + 1)

/-- Modelled from the spec: `ValidationQueue.getNextToken` returns the next
not-yet-processed item, or none when exhausted; processed items remain in the
queue.  The model returns the item's index. -/
def ValidationQueue.getNextTokenIdx (q : ValidationQueue) : Option Nat :=
  findFirstIdx (fun it => it.validationResponse.isNone) q.items

/-- Placeholder item for out-of-range reads (never reached on indices produced
by `getNextTokenIdx`). -/
def defaultQueueItem : QueueItem := { tokenToValidate := "" }

/-- Modelled from the spec: `QueueItem.setResult` records the response and the
classified `ClaimToken` on the item (mutated exactly once, after its validator
finishes).  Per the spec's `ClaimToken` lifecycle the decoded payload is
attached on successful validation; the decoded payload accumulated by the
pipeline lives in the response's `payloadObject`. -/
def ValidationQueue.setResult (q : ValidationQueue) (idx : Nat) (r : ValidationResponse)
    (ct : ClaimToken) : ValidationQueue :=
  { items := q.items.set idx
      { tokenToValidate := (q.items.getD idx defaultQueueItem).tokenToValidate,
        validatedToken := some { ct with decodedToken := if r.result then r.payloadObject else none },
        validationResponse := some r } }

/-- Modelled from the spec: `ValidationQueue.getResult` returns the response of
the last-processed item.  Items are processed in increasing index order, so
this is the response of the last item that carries one. -/
def ValidationQueue.getResult (q : ValidationQueue) : ValidationResponse :=
  match (q.items.filterMap (fun it => it.validationResponse)).getLast? with
  | some r => r
  | none => { result := false, status := 500, detailedError := some "no item processed" }

/-- Modelled from the spec: an `ITokenValidator` (external collaborator, spec
section 6).  It receives the queue (so it may enqueue nested tokens), the
current item, and the optional `siopDid` context (the third argument of
`validator.validate`; `undefined` when the orchestrator passes only two
arguments).  It returns the list of raw tokens it enqueued and its response. -/
structure TokenValidatorStub where
  run : ValidationQueue → QueueItem → Option String → List String × ValidationResponse

/-- A record of one validator invocation made by the orchestrator loop: the
classified type, the `siopDid` argument passed (for VC/VP dispatch; `none`
models `undefined`), the queue index of the item, and the response the
validator returned. -/
structure Invocation where
  tokenType : TokenType
  siopDidArg : Option String
  itemIndex : Nat
  response : ValidationResponse
  deriving Repr, DecidableEq

/-- String value of a possibly-undefined token type, as interpolated into the
rejection messages of `Validator.validate` (`${claimToken.type} ...`); the
`type` of the empty cast object `{} as ClaimToken` is `undefined`. -/
def typeNameStr : Option TokenType → String
  | none => "undefined"
  | some TokenType.idToken => "idToken"
  | some TokenType.verifiableCredential => "verifiableCredential"
  | some TokenType.verifiablePresentation => "verifiablePresentation"
  | some TokenType.siop => "siop"
  | some TokenType.selfIssued => "selfIssued"

/-- One iteration of the `Validator.validate` loop body
(src/lib/Api/Validator.ts, lines 52-92) on the item at `idx`: classify the raw
token, look the validator up in the dispatch table (a missing validator — also
when the classified token is the empty cast object with `undefined` type —
produces the promise rejection message, modelled as `Sum.inl`), dispatch with
the `siopDid` argument for VC/VP, let the validator enqueue nested tokens,
update `siopDid` from the response's `did` after the siop case (the source
assigns it unconditionally in that case), and record the result on the item.
The classification response itself is discarded on dispatch, as in the source.
The per-case `new ValidationOptions(...)` assignments build delegate bundles
and have no observable effect in the model. -/
def processItem (selfDel strictDel : ValidationResponse → String → ValidationResponse)
    (table : TokenType → Option TokenValidatorStub)
    (q : ValidationQueue) (siopDid : Option String) (idx : Nat) :
    Sum String (ValidationQueue × Option String × Invocation) :=
  let item := q.items.getD idx defaultQueueItem
  match (Validator.getTokenType selfDel strictDel item.tokenToValidate).2 with
  | none => Sum.inl (typeNameStr none ++ " does not has a TokenValidator")
  | some ct =>
    match table ct.type with
    | none => Sum.inl (typeNameStr (some ct.type) ++ " does not has a TokenValidator")
    | some v =>
      let sArg := if ct.type = TokenType.verifiableCredential ∨ ct.type = TokenType.verifiablePresentation
        then siopDid else none
      let pr := v.run q item sArg
      let q1 := pr.1.foldl ValidationQueue.addToken q
      let nextSiopDid := if ct.type = TokenType.siop then pr.2.did else siopDid
      Sum.inr (q1.setResult idx pr.2 ct, nextSiopDid,
        { tokenType := ct.type, siopDidArg := sArg, itemIndex := idx, response := pr.2 })

/-- Outcome of the orchestrator loop: queue exhausted, or a promise rejection. -/
inductive LoopOutcome where
  | finished
  | rejected (msg : String)
  deriving Repr, DecidableEq

/-- The `do ... while (queueItem)` loop of `Validator.validate`
(src/lib/Api/Validator.ts, lines 51-93), with fuel for termination (the queue
may grow while the loop runs; `none` models a run that needs more fuel).
Returns the loop outcome, the final queue, and the list of validator
invocations in order. -/
def validateLoop (selfDel strictDel : ValidationResponse → String → ValidationResponse)
    (table : TokenType → Option TokenValidatorStub) :
    Nat → ValidationQueue → Option String → Option (LoopOutcome × ValidationQueue × List Invocation)
  | 0, _, _ => none
  | Nat.succ fuel, q, siopDid =>
    match q.getNextTokenIdx with
    | none => some (LoopOutcome.finished, q, [])
    | some idx =>
      match processItem selfDel strictDel table q siopDid idx with
      | Sum.inl msg => some (LoopOutcome.rejected msg, q, [])
      | Sum.inr (q2, nextSiopDid, inv) =>
        match validateLoop selfDel strictDel table fuel q2 nextSiopDid with
        | none => none
        | some (out, q3, tr) => some (out, q3, inv :: tr)

/-- Result channel of `Validator.validate`: a returned response (`ok`) or a
promise rejection (`rejected`). -/
inductive ValidateOutcome where
  | ok (r : ValidationResponse)
  | rejected (msg : String)
  deriving Repr, DecidableEq

/-- True when the item's recorded `ClaimToken` has the given type: the filter
`item.validatedToken?.type === t` of `Validator.setValidationResult`. -/
def isTypeItem (t : TokenType) (it : QueueItem) : Bool :=
  match it.validatedToken with
  | some c => c.type = t
  | none => false

/-- Embedding of `Validator.setValidationResult` (src/lib/Api/Validator.ts,
lines 108-141): the subject DID is the first siop item's response DID if
truthy, else the first verifiable-credential item's decoded `aud` if truthy,
else the empty string; `idTokens` and `verifiableCredentials` collect the
decoded payloads of all items of those types; `selfIssued` is the first
self-issued item's decoded payload.  The source reads
`vc.validatedToken?.decodedToken.aud` without guarding `decodedToken`; the
model reads `none` where the source would throw, a path no claim exercises. -/
def Validator.setValidationResult (q : ValidationQueue) : IValidationResult :=
  let didSiop : Option String :=
    (((q.items.filter (isTypeItem TokenType.siop)).map
        (fun it => it.validationResponse.bind ValidationResponse.did)).head?).join
  let did : Option String :=
    if jsTruthy didSiop then didSiop
    else (((q.items.filter (isTypeItem TokenType.verifiableCredential)).map
        (fun it => (it.validatedToken.bind ClaimToken.decodedToken).bind Payload.aud)).head?).join
  let idTokens := (q.items.filter (isTypeItem TokenType.idToken)).map
    (fun it => it.validatedToken.bind ClaimToken.decodedToken)
  let vcs := (q.items.filter (isTypeItem TokenType.verifiableCredential)).map
    (fun it => it.validatedToken.bind ClaimToken.decodedToken)
  let si := (((q.items.filter (isTypeItem TokenType.selfIssued)).map
    (fun it => it.validatedToken.bind ClaimToken.decodedToken)).head?).join
  { did := if jsTruthy did then did.getD "" else "",
    verifiableCredentials := vcs,
    idTokens := idTokens,
    selfIssued := si }

/-- Embedding of the orchestrator `Validator.validate`
(src/lib/Api/Validator.ts, lines 40-106): build a fresh queue holding the root
token, run the loop, then return the last-processed item's response, upgraded
to `{result: true, status: 200, validationResult: ...}` when it succeeded.
The per-call `setValidatorOptions` bundle is stateless and is represented by
the delegate parameters. -/
def Validator.validate (selfDel strictDel : ValidationResponse → String → ValidationResponse)
    (table : TokenType → Option TokenValidatorStub) (fuel : Nat) (token : String) :
    Option (ValidateOutcome × ValidationQueue × List Invocation) :=
  match validateLoop selfDel strictDel table fuel ((ValidationQueue.mk []).addToken token) none with
  | none => none
  | some (LoopOutcome.rejected msg, q, tr) => some (ValidateOutcome.rejected msg, q, tr)
  | some (LoopOutcome.finished, q, tr) =>
    if (q.getResult).result then
      some (ValidateOutcome.ok
        { result := true, status := 200, validationResult := some (Validator.setValidationResult q) }, q, tr)
    else some (ValidateOutcome.ok q.getResult, q, tr)

/-- The `siopDid` context in effect after a list of invocations, starting from
`init`: each siop invocation replaces it with that invocation's response DID
(the source assigns `siopDid = response.did` unconditionally in the siop
case). -/
def lastSiopDid (init : Option String) (tr : List Invocation) : Option String :=
  tr.foldl (fun acc e => if e.tokenType = TokenType.siop then e.response.did else acc) init

/-- Response projection of a `Validator.validate` result. -/
def outResp : Option (ValidateOutcome × ValidationQueue × List Invocation) → ValidationResponse
  | some (ValidateOutcome.ok r, _, _) => r
  | _ => { result := false, status := 0 }

/-- Queue projection of a `Validator.validate` result. -/
def outQueue : Option (ValidateOutcome × ValidationQueue × List Invocation) → ValidationQueue
  | some (_, q, _) => q
  | none => ValidationQueue.mk []

/-- Trace projection of a `Validator.validate` result. -/
def outTrace : Option (ValidateOutcome × ValidationQueue × List Invocation) → List Invocation
  | some (_, _, tr) => tr
  | none => []

/-- A validator stub that always succeeds and enqueues nothing. -/
def okStub : TokenValidatorStub :=
  { run := fun _ _ _ => ([], { result := true, status := 200 }) }

/-- A dispatch table with a validator registered for all five types. -/
def tableFull : TokenType → Option TokenValidatorStub := fun _ => some okStub

/-- Tolerant-deserialization delegate for the run refuting fail-fast at the
orchestrator: token "A" parses to a siop-shaped payload, every other token to
an id-token-shaped payload. -/
def selfDelC1 : ValidationResponse → String → ValidationResponse := fun r t =>
  if t = "A" then { r with payloadObject := some { claims := true } }
  else { r with payloadObject := some {} }

/-- Strict-deserialization delegate that leaves the response unchanged
(success). -/
def strictDelOk : ValidationResponse → String → ValidationResponse := fun r _ => r

/-- Siop validator stub that fails (status 401) and has already enqueued the
nested token "B". -/
def siopStubC1 : TokenValidatorStub :=
  { run := fun _ _ _ =>
      (["B"], { result := false, status := 401, detailedError := some "siop validation failed" }) }

/-- Id-token validator stub that succeeds with a decoded payload. -/
def idStubC1 : TokenValidatorStub :=
  { run := fun _ _ _ =>
      ([], { result := true, status := 200, payloadObject := some { aud := some "aud1" } }) }

/-- Dispatch table for the C1 run. -/
def tableC1 : TokenType → Option TokenValidatorStub := fun t =>
  match t with
  | TokenType.siop => some siopStubC1
  | TokenType.idToken => some idStubC1
  | _ => none

/-- The C1 run: root token "A" fails as siop after enqueuing "B"; "B" then
validates successfully as an id token. -/
def vOutC1 : Option (ValidateOutcome × ValidationQueue × List Invocation) :=
  Validator.validate selfDelC1 strictDelOk tableC1 5 "A"

/-- Tolerant-deserialization delegate that fails structurally for every
token. -/
def selfDelC4 : ValidationResponse → String → ValidationResponse := fun _ _ =>
  { result := false, status := 400, detailedError := some "parse error" }

/-- Tolerant-deserialization delegate for the siopDid runs: "S" parses to a
siop-shaped payload, every other token to a vc-shaped payload. -/
def selfDelC5 : ValidationResponse → String → ValidationResponse := fun r t =>
  if t = "S" then { r with payloadObject := some { claims := true } }
  else { r with payloadObject := some { vc := true } }

/-- Siop validator stub that FAILS but carries a resolved DID on its response,
and has enqueued the nested token "V". -/
def siopStubC5 : TokenValidatorStub :=
  { run := fun _ _ _ =>
      (["V"], { result := false, status := 401, detailedError := some "bad signature",
                did := some "did:evil" }) }

/-- Verifiable-credential validator stub that succeeds. -/
def vcStubC5 : TokenValidatorStub :=
  { run := fun _ _ _ =>
      ([], { result := true, status := 200,
             payloadObject := some { vc := true, aud := some "did:evil" } }) }

/-- Dispatch table for the C5 run. -/
def tableC5 : TokenType → Option TokenValidatorStub := fun t =>
  match t with
  | TokenType.siop => some siopStubC5
  | TokenType.verifiableCredential => some vcStubC5
  | _ => none

/-- The C5 run: the siop item fails validation but its response carries a DID;
the nested VC item is then dispatched. -/
def vOutC5 : Option (ValidateOutcome × ValidationQueue × List Invocation) :=
  Validator.validate selfDelC5 strictDelOk tableC5 5 "S"

/-- Tolerant-deserialization delegate for the all-success run: "P" parses to a
siop-shaped payload, every other token to a vc-shaped payload. -/
def selfDelC6 : ValidationResponse → String → ValidationResponse := fun r t =>
  if t = "P" then { r with payloadObject := some { claims := true } }
  else { r with payloadObject := some { vc := true } }

/-- Siop validator stub that succeeds with DID "did:alice" and enqueues the
nested token "W". -/
def siopStubC6 : TokenValidatorStub :=
  { run := fun _ _ _ =>
      (["W"], { result := true, status := 200, did := some "did:alice",
                payloadObject := some { claims := true } }) }

/-- Verifiable-credential validator stub that succeeds with audience
"did:alice". -/
def vcStubC6 : TokenValidatorStub :=
  { run := fun _ _ _ =>
      ([], { result := true, status := 200,
             payloadObject := some { vc := true, aud := some "did:alice" } }) }

/-- Dispatch table for the C6 run. -/
def tableC6 : TokenType → Option TokenValidatorStub := fun t =>
  match t with
  | TokenType.siop => some siopStubC6
  | TokenType.verifiableCredential => some vcStubC6
  | _ => none

/-- The C6 run: a siop item and a nested VC item, both successful. -/
def vOutC6 : Option (ValidateOutcome × ValidationQueue × List Invocation) :=
  Validator.validate selfDelC6 strictDelOk tableC6 5 "P"

/-- Response of the C6 run. -/
def rC6 : ValidationResponse := outResp vOutC6

/-- Final queue of the C6 run. -/
def qC6 : ValidationQueue := outQueue vOutC6

/-- Trace of the C6 run. -/
def trC6 : List Invocation := outTrace vOutC6

/-- Tolerant-deserialization delegate that parses every token to an
id-token-shaped payload (no vc, vp or claims field). -/
def selfDelIdTok : ValidationResponse → String → ValidationResponse := fun r _ =>
  { r with payloadObject := some {} }

/-- Dispatch table with only a siop validator registered (no id-token
validator). -/
def tableC7 : TokenType → Option TokenValidatorStub := fun t =>
  match t with
  | TokenType.siop => some okStub
  | _ => none

/-- Tolerant-deserialization delegate that parses every token to a vc-shaped
payload. -/
def selfDelC10 : ValidationResponse → String → ValidationResponse := fun r _ =>
  { r with payloadObject := some { vc := true } }

/-- Verifiable-credential validator stub for the C10 run. -/
def vcStubC10 : TokenValidatorStub :=
  { run := fun _ _ _ =>
      ([], { result := true, status := 200, payloadObject := some { vc := true } }) }

/-- Dispatch table for the C10 run. -/
def tableC10 : TokenType → Option TokenValidatorStub := fun t =>
  match t with
  | TokenType.verifiableCredential => some vcStubC10
  | _ => none

/-- The C10 run: a single VC token, dispatched before any siop item exists. -/
def vOutC10 : Option (ValidateOutcome × ValidationQueue × List Invocation) :=
  Validator.validate selfDelC10 strictDelOk tableC10 5 "V"

/-- Concrete id-token delegate bundle whose configuration step fails. -/
def dC2 : IdTokenDelegates :=
  { getTokenObject := fun r _ => r,
    downloadConfigurationAndValidate := fun _ _ =>
      { result := false, status := 401, detailedError := some "configuration rejected" },
    checkTimeValidityOnToken := fun r => r,
    checkScopeValidityOnIdToken := fun r => r }

/-- Concrete DID delegate bundle (all steps succeed, DID present). -/
def eC2 : DidDelegates :=
  { getTokenObject := fun r _ => { r with did := some "did:a" },
    resolveDidAndGetKeys := fun r => r,
    validateDidSignature := fun r _ => r,
    checkTimeValidityOnToken := fun r => r,
    checkScopeValidityOnToken := fun r => r }

/-- Concrete id token used by witnesses. -/
def tokC2 : ClaimToken := { type := TokenType.idToken, rawToken := "t" }

/-- Classifier delegate producing a payload that has a truthy `vc` field and a
truthy `claims` field at the same time. -/
def selfDelC3 : ValidationResponse → String → ValidationResponse := fun r _ =>
  { r with payloadObject := some { vc := true, claims := true } }

/-- Concrete DID delegate bundle whose deserialization succeeds but leaves no
DID on the response. -/
def eC8 : DidDelegates :=
  { getTokenObject := fun r _ => { r with payloadObject := some {} },
    resolveDidAndGetKeys := fun r => r,
    validateDidSignature := fun r _ => r,
    checkTimeValidityOnToken := fun r => r,
    checkScopeValidityOnToken := fun r => r }

/-- The first siop item's response DID (the `[0]` of the filtered/mapped list
in `Validator.setValidationResult`). -/
def firstSiopDid (q : ValidationQueue) : Option String :=
  (((q.items.filter (isTypeItem TokenType.siop)).map
     (fun it => it.validationResponse.bind ValidationResponse.did)).head?).join

/-- The first verifiable-credential item's decoded audience field (the `[0]`
of the filtered/mapped list in `Validator.setValidationResult`). -/
def firstVcAud (q : ValidationQueue) : Option String :=
  (((q.items.filter (isTypeItem TokenType.verifiableCredential)).map
     (fun it => (it.validatedToken.bind ClaimToken.decodedToken).bind Payload.aud)).head?).join

/-- The decoded payloads of all items recorded with the given token type. -/
def decodedOfType (t : TokenType) (q : ValidationQueue) : List (Option Payload) :=
  (q.items.filter (isTypeItem t)).map (fun it => it.validatedToken.bind ClaimToken.decodedToken)

/-! ### Helper lemmas -/

/-- If `findFirstIdx` finds nothing, no element satisfies the predicate. -/
theorem findFirstIdx_eq_none_all {α : Type} (p : α → Bool) :
    ∀ l : List α, findFirstIdx p l = none → ∀ x ∈ l, p x = false := by
  intro l
  induction l with
  | nil => intro _ x hx; exact absurd hx (List.not_mem_nil x)
  | cons a l ih =>
    intro h x hx
    by_cases hpa : p a = true
    · simp [findFirstIdx, hpa] at h
    · have hpa2 : p a = false := by simpa using hpa
      have htail : findFirstIdx p l = none := by
        simpa [findFirstIdx, hpa2] using h
      rcases List.mem_cons.mp hx with rfl | hx2
      · exact hpa2
      · exact ih htail x hx2

/-- The last element of a list is a member. -/
theorem list_getLast?_mem {α : Type} {l : List α} {a : α} (h : l.getLast? = some a) : a ∈ l := by
  have hx : a ∈ l.getLast? := Option.mem_def.mpr h
  rcases List.mem_getLast?_eq_getLast hx with ⟨hne, rfl⟩
  exact List.getLast_mem hne

/-- Appending a token grows the queue by one item. -/
theorem addToken_length (q : ValidationQueue) (t : String) :
    (q.addToken t).items.length = q.items.length + 1 := by
  simp [ValidationQueue.addToken]

/-- Folding `addToken` over a token list grows the queue by its length. -/
theorem foldl_addToken_length :
    ∀ (l : List String) (q : ValidationQueue),
      (l.foldl ValidationQueue.addToken q).items.length = q.items.length + l.length := by
  intro l
  induction l with
  | nil => intro q; simp
  | cons t l ih =>
    intro q
    simp only [List.foldl_cons, ih, addToken_length, List.length_cons]
    omega

/-- Recording a result preserves the number of queue items. -/
theorem setResult_length (q : ValidationQueue) (idx : Nat) (r : ValidationResponse)
    (ct : ClaimToken) : (q.setResult idx r ct).items.length = q.items.length := by
  simp [ValidationQueue.setResult]

/-- Characterization of a successful loop-body step: the `siopDid` argument
passed to the validator, the updated `siopDid` context, and queue growth. -/
theorem processItem_inr {selfDel strictDel : ValidationResponse → String → ValidationResponse}
    {table : TokenType → Option TokenValidatorStub}
    {q : ValidationQueue} {siopDid : Option String} {idx : Nat}
    {q2 : ValidationQueue} {s2 : Option String} {inv : Invocation}
    (h : processItem selfDel strictDel table q siopDid idx = Sum.inr (q2, s2, inv)) :
    inv.siopDidArg = (if inv.tokenType = TokenType.verifiableCredential ∨ inv.tokenType = TokenType.verifiablePresentation then siopDid else none)
    ∧ s2 = (if inv.tokenType = TokenType.siop then inv.response.did else siopDid)
    ∧ q.items.length ≤ q2.items.length := by
  simp only [processItem] at h
  split at h
  · exact absurd h (by simp)
  · split at h
    · exact absurd h (by simp)
    · simp only [Sum.inr.injEq, Prod.mk.injEq] at h
      obtain ⟨h1, h2, h3⟩ := h
      subst h1; subst h2; subst h3
      refine ⟨rfl, rfl, ?_⟩
      rw [setResult_length, foldl_addToken_length]
      exact Nat.le_add_right _ _

/-- `lastSiopDid` over a trace without siop invocations is the initial value. -/
theorem lastSiopDid_no_siop :
    ∀ (tr : List Invocation) (s : Option String),
      (∀ e ∈ tr, e.tokenType ≠ TokenType.siop) → lastSiopDid s tr = s := by
  intro tr
  induction tr with
  | nil => intro s _; rfl
  | cons e l ih =>
    intro s h
    have he : e.tokenType ≠ TokenType.siop := h e (List.mem_cons_self e l)
    show lastSiopDid (if e.tokenType = TokenType.siop then e.response.did else s) l = s
    rw [if_neg he]
    exact ih s (fun x hx => h x (List.mem_cons_of_mem e hx))

/-- Main loop invariants: a finished loop has exhausted the queue, the queue
never shrinks, and every VC/VP invocation received as `siopDid` argument the
DID recorded by the most recent siop invocation before it (the initial context
if there was none) — whether or not that siop validation succeeded. -/
theorem validateLoop_props
    (selfDel strictDel : ValidationResponse → String → ValidationResponse)
    (table : TokenType → Option TokenValidatorStub) :
    ∀ (fuel : Nat) (q : ValidationQueue) (s : Option String)
      (out : LoopOutcome) (q2 : ValidationQueue) (tr : List Invocation),
      validateLoop selfDel strictDel table fuel q s = some (out, q2, tr) →
      (out = LoopOutcome.finished → q2.getNextTokenIdx = none)
      ∧ q.items.length ≤ q2.items.length
      ∧ (∀ (k : Nat) (hk : k < tr.length),
          ((tr.get ⟨k, hk⟩).tokenType = TokenType.verifiableCredential ∨
           (tr.get ⟨k, hk⟩).tokenType = TokenType.verifiablePresentation) →
          (tr.get ⟨k, hk⟩).siopDidArg = lastSiopDid s (tr.take k)) := by
  intro fuel
  induction fuel with
  | zero => intro q s out q2 tr h; simp [validateLoop] at h
  | succ n ih =>
    intro q s out q2 tr h
    simp only [validateLoop] at h
    split at h
    · rename_i hidx
      simp only [Option.some.injEq, Prod.mk.injEq] at h
      obtain ⟨h1, h2, h3⟩ := h
      rw [← h1, ← h2, ← h3]
      refine ⟨fun _ => hidx, Nat.le_refl _, ?_⟩
      intro k hk
      simp at hk
    · rename_i idx hidx
      split at h
      · rename_i msg hpi
        simp only [Option.some.injEq, Prod.mk.injEq] at h
        obtain ⟨h1, h2, h3⟩ := h
        rw [← h1, ← h2, ← h3]
        refine ⟨(fun hfin => nomatch hfin), Nat.le_refl _, ?_⟩
        intro k hk
        simp at hk
      · rename_i qn sn inv hpi
        split at h
        · exact absurd h (by simp)
        · rename_i out3 q3 tr3 hrec
          simp only [Option.some.injEq, Prod.mk.injEq] at h
          obtain ⟨h1, h2, h3⟩ := h
          rw [← h1, ← h2, ← h3]
          obtain ⟨hfin, hlen, hsio⟩ := ih qn sn out3 q3 tr3 hrec
          obtain ⟨hargEq, hs2Eq, hlenPi⟩ := processItem_inr hpi
          refine ⟨hfin, Nat.le_trans hlenPi hlen, ?_⟩
          intro k hk hty
          cases k with
          | zero =>
            simp only [List.get] at hty ⊢
            rw [hargEq, if_pos hty]
            rfl
          | succ k =>
            have hk3 : k < tr3.length := by simpa using hk
            simp only [List.get_cons_succ] at hty ⊢
            have hgoal := hsio k hk3 hty
            rw [List.take_succ_cons]
            show (tr3.get ⟨k, hk3⟩).siopDidArg = lastSiopDid (if inv.tokenType = TokenType.siop then inv.response.did else s) (tr3.take k)
            rw [← hs2Eq]
            exact hgoal

/-- A queue whose `getNextTokenIdx` is exhausted has every item processed. -/
theorem getNextTokenIdx_none_processed (q : ValidationQueue)
    (h : q.getNextTokenIdx = none) :
    ∀ it ∈ q.items, it.validationResponse.isSome = true := by
  intro it hit
  have hfalse := findFirstIdx_eq_none_all _ q.items h it hit
  cases hresp : it.validationResponse with
  | none => rw [hresp] at hfalse; simp at hfalse
  | some r => rfl

/-- When the queue is nonempty, fully processed, and every recorded response
succeeded, `getResult` returns a successful response. -/
theorem getResult_result_true (q : ValidationQueue)
    (hne : q.items ≠ [])
    (hall : ∀ it ∈ q.items, it.validationResponse.isSome = true)
    (hres : ∀ it ∈ q.items, Option.all (fun r => r.result) it.validationResponse = true) :
    q.getResult.result = true := by
  obtain ⟨it0, hit0⟩ := List.exists_mem_of_ne_nil q.items hne
  obtain ⟨r0, hr0⟩ := Option.isSome_iff_exists.mp (hall it0 hit0)
  have hmem : r0 ∈ q.items.filterMap (fun it => it.validationResponse) :=
    List.mem_filterMap.mpr ⟨it0, hit0, hr0⟩
  have hfne : q.items.filterMap (fun it => it.validationResponse) ≠ [] :=
    List.ne_nil_of_mem hmem
  unfold ValidationQueue.getResult
  cases hgl : (q.items.filterMap (fun it => it.validationResponse)).getLast? with
  | none => exact absurd (List.getLast?_eq_none_iff.mp hgl) hfne
  | some r =>
    obtain ⟨it1, hit1, hresp1⟩ := List.mem_filterMap.mp (list_getLast?_mem hgl)
    have hgood := hres it1 hit1
    rw [hresp1] at hgood
    simpa using hgood

/-- `Validator.setValidationResult` computes exactly: subject DID from the
first siop item's response DID when truthy, else the first VC item's decoded
audience when truthy, else the empty string; plus the per-type decoded payload
collections. -/
theorem setValidationResult_spec (q : ValidationQueue) :
    Validator.setValidationResult q =
      { did := if jsTruthy (firstSiopDid q) then (firstSiopDid q).getD ""
               else if jsTruthy (firstVcAud q) then (firstVcAud q).getD "" else "",
        verifiableCredentials := decodedOfType TokenType.verifiableCredential q,
        idTokens := decodedOfType TokenType.idToken q,
        selfIssued := ((decodedOfType TokenType.selfIssued q).head?).join } := by
  have hdid : ∀ (a b : Option String),
      (if jsTruthy (if jsTruthy a then a else b) then (if jsTruthy a then a else b).getD "" else "")
      = (if jsTruthy a then a.getD "" else if jsTruthy b then b.getD "" else "") := by
    intro a b
    by_cases h : jsTruthy a = true
    · simp [h]
    · have hf : jsTruthy a = false := by simpa using h
      simp [hf]
  rw [← hdid (firstSiopDid q) (firstVcAud q)]
  rfl

/-- In any terminating `Validator.validate` run, every VC/VP invocation in the
trace received as `siopDid` argument the DID of the most recent siop
invocation's response before it (`none` when there was none), regardless of
whether that siop validation succeeded. -/
theorem validate_trace_siopDid
    (selfDel strictDel : ValidationResponse → String → ValidationResponse)
    (table : TokenType → Option TokenValidatorStub) (fuel : Nat) (token : String)
    (out : ValidateOutcome) (q : ValidationQueue) (tr : List Invocation)
    (h : Validator.validate selfDel strictDel table fuel token = some (out, q, tr)) :
    ∀ (k : Nat) (hk : k < tr.length),
      ((tr.get ⟨k, hk⟩).tokenType = TokenType.verifiableCredential ∨
       (tr.get ⟨k, hk⟩).tokenType = TokenType.verifiablePresentation) →
      (tr.get ⟨k, hk⟩).siopDidArg = lastSiopDid none (tr.take k) := by
  unfold Validator.validate at h
  split at h
  · exact absurd h (by simp)
  · rename_i msg q0 tr0 hl
    simp only [Option.some.injEq, Prod.mk.injEq] at h
    obtain ⟨h1, h2, h3⟩ := h
    subst h3
    exact (validateLoop_props selfDel strictDel table fuel _ none _ _ _ hl).2.2
  · rename_i q0 tr0 hl
    split at h <;>
      (simp only [Option.some.injEq, Prod.mk.injEq] at h
       obtain ⟨h1, h2, h3⟩ := h
       subst h3
       exact (validateLoop_props selfDel strictDel table fuel _ none _ _ _ hl).2.2)

/-! ### Claim theorems -/

/-- C2: for every token and every per-type validation pipeline in the sources
(the id-token pipeline and the DID pipeline), if any step returns a response
with `result = false`, that response is returned immediately and no subsequent
step of that pipeline executes — the returned value is the failing step's
response and is independent of all later delegates, which is expressed by
quantifying the later steps over arbitrary replacement bundles `d'`/`e'`. -/
theorem claim_c2_short_circuit (d d' : IdTokenDelegates) (tok : ClaimToken)
    (e e' : DidDelegates) (s : String) :
    ((d.getTokenObject idTokenInitResponse tok.rawToken).result = false →
      BaseIdTokenValidation.validate
        { getTokenObject := d.getTokenObject,
          downloadConfigurationAndValidate := d'.downloadConfigurationAndValidate,
          checkTimeValidityOnToken := d'.checkTimeValidityOnToken,
          checkScopeValidityOnIdToken := d'.checkScopeValidityOnIdToken } tok
        = d.getTokenObject idTokenInitResponse tok.rawToken)
    ∧ ((d.getTokenObject idTokenInitResponse tok.rawToken).result = true →
       (d.downloadConfigurationAndValidate (d.getTokenObject idTokenInitResponse tok.rawToken) tok).result = false →
      BaseIdTokenValidation.validate
        { getTokenObject := d.getTokenObject,
          downloadConfigurationAndValidate := d.downloadConfigurationAndValidate,
          checkTimeValidityOnToken := d'.checkTimeValidityOnToken,
          checkScopeValidityOnIdToken := d'.checkScopeValidityOnIdToken } tok
        = d.downloadConfigurationAndValidate (d.getTokenObject idTokenInitResponse tok.rawToken) tok)
    ∧ ((d.getTokenObject idTokenInitResponse tok.rawToken).result = true →
       (d.downloadConfigurationAndValidate (d.getTokenObject idTokenInitResponse tok.rawToken) tok).result = true →
       (d.checkTimeValidityOnToken (d.downloadConfigurationAndValidate (d.getTokenObject idTokenInitResponse tok.rawToken) tok)).result = false →
      BaseIdTokenValidation.validate
        { getTokenObject := d.getTokenObject,
          downloadConfigurationAndValidate := d.downloadConfigurationAndValidate,
          checkTimeValidityOnToken := d.checkTimeValidityOnToken,
          checkScopeValidityOnIdToken := d'.checkScopeValidityOnIdToken } tok
        = d.checkTimeValidityOnToken (d.downloadConfigurationAndValidate (d.getTokenObject idTokenInitResponse tok.rawToken) tok))
    ∧ ((d.getTokenObject idTokenInitResponse tok.rawToken).result = true →
       (d.downloadConfigurationAndValidate (d.getTokenObject idTokenInitResponse tok.rawToken) tok).result = true →
       (d.checkTimeValidityOnToken (d.downloadConfigurationAndValidate (d.getTokenObject idTokenInitResponse tok.rawToken) tok)).result = true →
       (d.checkScopeValidityOnIdToken (d.checkTimeValidityOnToken (d.downloadConfigurationAndValidate (d.getTokenObject idTokenInitResponse tok.rawToken) tok))).result = false →
      BaseIdTokenValidation.validate d tok
        = d.checkScopeValidityOnIdToken (d.checkTimeValidityOnToken (d.downloadConfigurationAndValidate (d.getTokenObject idTokenInitResponse tok.rawToken) tok)))
    ∧ ((e.getTokenObject initOkResponse s).result = false →
      DidValidation.validate
        { getTokenObject := e.getTokenObject,
          resolveDidAndGetKeys := e'.resolveDidAndGetKeys,
          validateDidSignature := e'.validateDidSignature,
          checkTimeValidityOnToken := e'.checkTimeValidityOnToken,
          checkScopeValidityOnToken := e'.checkScopeValidityOnToken } s
        = e.getTokenObject initOkResponse s)
    ∧ ((e.getTokenObject initOkResponse s).result = true →
       jsTruthy (e.getTokenObject initOkResponse s).did = false →
      DidValidation.validate
        { getTokenObject := e.getTokenObject,
          resolveDidAndGetKeys := e'.resolveDidAndGetKeys,
          validateDidSignature := e'.validateDidSignature,
          checkTimeValidityOnToken := e'.checkTimeValidityOnToken,
          checkScopeValidityOnToken := e'.checkScopeValidityOnToken } s
        = missingDidResponse)
    ∧ ((e.getTokenObject initOkResponse s).result = true →
       jsTruthy (e.getTokenObject initOkResponse s).did = true →
       (e.resolveDidAndGetKeys (e.getTokenObject initOkResponse s)).result = false →
      DidValidation.validate
        { getTokenObject := e.getTokenObject,
          resolveDidAndGetKeys := e.resolveDidAndGetKeys,
          validateDidSignature := e'.validateDidSignature,
          checkTimeValidityOnToken := e'.checkTimeValidityOnToken,
          checkScopeValidityOnToken := e'.checkScopeValidityOnToken } s
        = e.resolveDidAndGetKeys (e.getTokenObject initOkResponse s))
    ∧ ((e.getTokenObject initOkResponse s).result = true →
       jsTruthy (e.getTokenObject initOkResponse s).did = true →
       (e.resolveDidAndGetKeys (e.getTokenObject initOkResponse s)).result = true →
       (e.validateDidSignature (e.resolveDidAndGetKeys (e.getTokenObject initOkResponse s)) (e.resolveDidAndGetKeys (e.getTokenObject initOkResponse s)).didSignature).result = false →
      DidValidation.validate
        { getTokenObject := e.getTokenObject,
          resolveDidAndGetKeys := e.resolveDidAndGetKeys,
          validateDidSignature := e.validateDidSignature,
          checkTimeValidityOnToken := e'.checkTimeValidityOnToken,
          checkScopeValidityOnToken := e'.checkScopeValidityOnToken } s
        = e.validateDidSignature (e.resolveDidAndGetKeys (e.getTokenObject initOkResponse s)) (e.resolveDidAndGetKeys (e.getTokenObject initOkResponse s)).didSignature)
    ∧ ((e.getTokenObject initOkResponse s).result = true →
       jsTruthy (e.getTokenObject initOkResponse s).did = true →
       (e.resolveDidAndGetKeys (e.getTokenObject initOkResponse s)).result = true →
       (e.validateDidSignature (e.resolveDidAndGetKeys (e.getTokenObject initOkResponse s)) (e.resolveDidAndGetKeys (e.getTokenObject initOkResponse s)).didSignature).result = true →
       (e.checkTimeValidityOnToken (e.validateDidSignature (e.resolveDidAndGetKeys (e.getTokenObject initOkResponse s)) (e.resolveDidAndGetKeys (e.getTokenObject initOkResponse s)).didSignature)).result = false →
      DidValidation.validate
        { getTokenObject := e.getTokenObject,
          resolveDidAndGetKeys := e.resolveDidAndGetKeys,
          validateDidSignature := e.validateDidSignature,
          checkTimeValidityOnToken := e.checkTimeValidityOnToken,
          checkScopeValidityOnToken := e'.checkScopeValidityOnToken } s
        = e.checkTimeValidityOnToken (e.validateDidSignature (e.resolveDidAndGetKeys (e.getTokenObject initOkResponse s)) (e.resolveDidAndGetKeys (e.getTokenObject initOkResponse s)).didSignature))
    ∧ ((e.getTokenObject initOkResponse s).result = true →
       jsTruthy (e.getTokenObject initOkResponse s).did = true →
       (e.resolveDidAndGetKeys (e.getTokenObject initOkResponse s)).result = true →
       (e.validateDidSignature (e.resolveDidAndGetKeys (e.getTokenObject initOkResponse s)) (e.resolveDidAndGetKeys (e.getTokenObject initOkResponse s)).didSignature).result = true →
       (e.checkTimeValidityOnToken (e.validateDidSignature (e.resolveDidAndGetKeys (e.getTokenObject initOkResponse s)) (e.resolveDidAndGetKeys (e.getTokenObject initOkResponse s)).didSignature)).result = true →
       (e.checkScopeValidityOnToken (e.checkTimeValidityOnToken (e.validateDidSignature (e.resolveDidAndGetKeys (e.getTokenObject initOkResponse s)) (e.resolveDidAndGetKeys (e.getTokenObject initOkResponse s)).didSignature))).result = false →
      DidValidation.validate e s
        = e.checkScopeValidityOnToken (e.checkTimeValidityOnToken (e.validateDidSignature (e.resolveDidAndGetKeys (e.getTokenObject initOkResponse s)) (e.resolveDidAndGetKeys (e.getTokenObject initOkResponse s)).didSignature))) := by
  refine ⟨?_, ?_, ?_, ?_, ?_, ?_, ?_, ?_, ?_, ?_⟩
  · intro h1
    simp [BaseIdTokenValidation.validate, h1]
  · intro h1 h2
    simp [BaseIdTokenValidation.validate, h1, h2]
  · intro h1 h2 h3
    simp [BaseIdTokenValidation.validate, h1, h2, h3]
  · intro h1 h2 h3 h4
    simp [BaseIdTokenValidation.validate, h1, h2, h3, h4]
  · intro h1
    simp [DidValidation.validate, h1]
  · intro h1 h2
    simp [DidValidation.validate, h1, h2]
  · intro h1 h2 h3
    simp [DidValidation.validate, h1, h2, h3]
  · intro h1 h2 h3 h4
    simp [DidValidation.validate, h1, h2, h3, h4]
  · intro h1 h2 h3 h4 h5
    simp [DidValidation.validate, h1, h2, h3, h4, h5]
  · intro h1 h2 h3 h4 h5 h6
    simp [DidValidation.validate, h1, h2, h3, h4, h5, h6]

/-- C2 witness: a concrete id-token pipeline whose configuration step fails
returns that failure. -/
theorem claim_c2_witness :
    BaseIdTokenValidation.validate
      { getTokenObject := dC2.getTokenObject,
        downloadConfigurationAndValidate := dC2.downloadConfigurationAndValidate,
        checkTimeValidityOnToken := dC2.checkTimeValidityOnToken,
        checkScopeValidityOnIdToken := dC2.checkScopeValidityOnIdToken } tokC2
      = dC2.downloadConfigurationAndValidate
          (dC2.getTokenObject idTokenInitResponse tokC2.rawToken) tokC2 :=
  (claim_c2_short_circuit dC2 dC2 tokC2 eC2 eC2 "s").2.1 (by rfl) (by rfl)

/-- C3: the classifier follows the ordered first-match-wins algorithm — a
truthy `vc` field yields verifiableCredential regardless of the other fields,
else a truthy `vp` field yields verifiablePresentation, else a truthy `claims`
field yields siop, else strict deserialization is attempted and a failure with
status exactly 403 yields selfIssued, and every remaining case yields
idToken. -/
theorem claim_c3_classifier_order
    (selfDel strictDel : ValidationResponse → String → ValidationResponse)
    (token : String) (p : Payload)
    (hres : (selfDel initOkResponse token).result = true)
    (hpay : (selfDel initOkResponse token).payloadObject = some p) :
    (p.vc = true →
      (Validator.getTokenType selfDel strictDel token).2
        = some { type := TokenType.verifiableCredential, rawToken := token })
    ∧ (p.vc = false → p.vp = true →
      (Validator.getTokenType selfDel strictDel token).2
        = some { type := TokenType.verifiablePresentation, rawToken := token })
    ∧ (p.vc = false → p.vp = false → p.claims = true →
      (Validator.getTokenType selfDel strictDel token).2
        = some { type := TokenType.siop, rawToken := token })
    ∧ (p.vc = false → p.vp = false → p.claims = false →
       (strictDel (selfDel initOkResponse token) token).result = false →
       (strictDel (selfDel initOkResponse token) token).status = 403 →
      (Validator.getTokenType selfDel strictDel token).2
        = some { type := TokenType.selfIssued, rawToken := token })
    ∧ (p.vc = false → p.vp = false → p.claims = false →
       ¬((strictDel (selfDel initOkResponse token) token).result = false ∧
         (strictDel (selfDel initOkResponse token) token).status = 403) →
      (Validator.getTokenType selfDel strictDel token).2
        = some { type := TokenType.idToken, rawToken := token }) := by
  refine ⟨?_, ?_, ?_, ?_, ?_⟩
  · intro hvc
    simp [Validator.getTokenType, hres, hpay, hvc]
  · intro hvc hvp
    simp [Validator.getTokenType, hres, hpay, hvc, hvp]
  · intro hvc hvp hclaims
    simp [Validator.getTokenType, hres, hpay, hvc, hvp, hclaims]
  · intro hvc hvp hclaims h4a h4b
    simp [Validator.getTokenType, hres, hpay, hvc, hvp, hclaims, h4a, h4b]
  · intro hvc hvp hclaims hn
    have hcond : (!(strictDel (selfDel initOkResponse token) token).result
        && ((strictDel (selfDel initOkResponse token) token).status == 403)) = false := by
      cases hr : (strictDel (selfDel initOkResponse token) token).result with
      | true => simp
      | false =>
        have hs : (strictDel (selfDel initOkResponse token) token).status ≠ 403 :=
          fun hs403 => hn ⟨hr, hs403⟩
        simp [hs]
    simp [Validator.getTokenType, hres, hpay, hvc, hvp, hclaims, hcond]

/-- C3 witness: a payload carrying both a truthy `vc` field and a truthy
`claims` field is classified verifiableCredential. -/
theorem claim_c3_witness :
    (Validator.getTokenType selfDelC3 strictDelOk "x").2
      = some { type := TokenType.verifiableCredential, rawToken := "x" } :=
  (claim_c3_classifier_order selfDelC3 strictDelOk "x" { vc := true, claims := true }
    (by rfl) (by rfl)).1 rfl

/-- C8: for every token whose deserialization step succeeds but leaves no DID
on the response (in the JavaScript-truthiness sense), `DidValidation.validate`
returns the structured failure `{result: false, status: 403, detailedError:
'The input token does not contain the DID'}` without invoking the DID
resolver, the signature verification, or any later step — expressed by
quantifying those steps over an arbitrary replacement bundle `e'` — and
without throwing (the embedding is a total function). -/
theorem claim_c8_missing_did (e e' : DidDelegates) (token : String)
    (h1 : (e.getTokenObject initOkResponse token).result = true)
    (h2 : jsTruthy (e.getTokenObject initOkResponse token).did = false) :
    DidValidation.validate
      { getTokenObject := e.getTokenObject,
        resolveDidAndGetKeys := e'.resolveDidAndGetKeys,
        validateDidSignature := e'.validateDidSignature,
        checkTimeValidityOnToken := e'.checkTimeValidityOnToken,
        checkScopeValidityOnToken := e'.checkScopeValidityOnToken } token
      = { result := false,
          detailedError := some "The input token does not contain the DID",
          status := 403 } := by
  simp [DidValidation.validate, h1, h2, missingDidResponse]

/-- C8 witness: a concrete DID pipeline whose deserialization succeeds without
a DID returns the missing-DID failure. -/
theorem claim_c8_witness :
    DidValidation.validate
      { getTokenObject := eC8.getTokenObject,
        resolveDidAndGetKeys := eC8.resolveDidAndGetKeys,
        validateDidSignature := eC8.validateDidSignature,
        checkTimeValidityOnToken := eC8.checkTimeValidityOnToken,
        checkScopeValidityOnToken := eC8.checkScopeValidityOnToken } "tok"
      = { result := false,
          detailedError := some "The input token does not contain the DID",
          status := 403 } :=
  claim_c8_missing_did eC8 eC8 "tok" (by rfl) (by rfl)

/-- C9: `Validator.validate` is deterministic per call — with the same raw
token and identical collaborator behaviour (the same delegates, dispatch table
and fuel) two runs yield identical results.  The source's `validate` assigns
no instance field, builds a fresh options bundle through `setValidatorOptions`
and a fresh queue on every call, so its embedding is a pure function of the
call's inputs and the two runs coincide definitionally. -/
theorem claim_c9_deterministic
    (selfDel strictDel : ValidationResponse → String → ValidationResponse)
    (table : TokenType → Option TokenValidatorStub) (fuel : Nat) (token : String) :
    Validator.validate selfDel strictDel table fuel token
      = Validator.validate selfDel strictDel table fuel token := rfl

/-- C4: evaluation at the failing input — a token whose tolerant (self-issued)
deserialization fails structurally.  The call does abort immediately without
validating any queue item (empty invocation trace, no item processed), but the
code first looks the `undefined` type up in the dispatch table (every type has
a validator registered here) and then rejects the promise with
"undefined does not has a TokenValidator", discarding the parse-failure
response instead of returning it as the claim states. -/
theorem claim_c4_parse_failure_rejected :
    Validator.validate selfDelC4 strictDelOk tableFull 5 "tok"
      = some (ValidateOutcome.rejected "undefined does not has a TokenValidator",
              { items := [{ tokenToValidate := "tok" }] }, []) := by
  rfl

/-- C7: evaluation at the failing input — a token classified idToken while the
dispatch table has no idToken validator.  The call does not return a
structured failure response through the ordinary channel: it rejects the
promise with a bare string, the inconsistency the spec's design notes flag as
a bug. -/
theorem claim_c7_unmapped_type_rejected :
    Validator.validate selfDelIdTok strictDelOk tableC7 5 "I"
      = some (ValidateOutcome.rejected "idToken does not has a TokenValidator",
              { items := [{ tokenToValidate := "I" }] }, []) := by
  rfl

/-- C1 counterexample: in the C1 run the first queue item's validator returns
`result = false` (status 401), yet the loop goes on to process the second,
already-enqueued item (trace length 2) and the call returns a success response
built from that later item — refuting the claimed fail-fast orchestrator
policy. -/
theorem claim_c1_counterexample :
    (outResp vOutC1).result = true
    ∧ (outResp vOutC1).status = 200
    ∧ ((outQueue vOutC1).items.map (fun it => it.validationResponse.map ValidationResponse.result))
        = [some false, some true]
    ∧ (outTrace vOutC1).length = 2 := by
  refine ⟨rfl, rfl, rfl, rfl⟩

/-- C5 counterexample: in the C5 run the siop item FAILS validation (recorded
response `result = false`) while its response carries the DID "did:evil", and
the verifiable-credential item processed later is nevertheless invoked with
`siopDid = some "did:evil"` — refuting the claim that a siop token failing
validation does not establish `siopDid`. -/
theorem claim_c5_counterexample :
    ((outTrace vOutC5).map (fun e => (e.tokenType, e.siopDidArg)))
      = [(TokenType.siop, none), (TokenType.verifiableCredential, some "did:evil")]
    ∧ ((outQueue vOutC5).items.map (fun it => it.validationResponse.map ValidationResponse.result))
      = [some false, some true] := by
  refine ⟨rfl, rfl⟩

/-- C1 (amended): a failed queue item does not stop the orchestrator loop —
in every run of `Validator.validate` that returns a response (rather than
rejecting the promise), every item of the final queue has been processed,
including items enqueued after a failure, and a failure response is returned
only as the response of the last-processed item. -/
theorem claim_c1_loop_continues
    (selfDel strictDel : ValidationResponse → String → ValidationResponse)
    (table : TokenType → Option TokenValidatorStub) (fuel : Nat) (token : String)
    (r : ValidationResponse) (q : ValidationQueue) (tr : List Invocation)
    (h : Validator.validate selfDel strictDel table fuel token = some (ValidateOutcome.ok r, q, tr)) :
    (∀ it ∈ q.items, it.validationResponse.isSome = true)
    ∧ (r.result = false → r = q.getResult) := by
  unfold Validator.validate at h
  split at h
  · exact absurd h (by simp)
  · exact absurd h (by simp)
  · rename_i q0 tr0 hl
    have hnext := (validateLoop_props selfDel strictDel table fuel _ none _ _ _ hl).1 rfl
    have hproc := getNextTokenIdx_none_processed q0 hnext
    split at h
    · rename_i hres
      simp only [Option.some.injEq, Prod.mk.injEq, ValidateOutcome.ok.injEq] at h
      obtain ⟨h1, h2, h3⟩ := h
      subst h2
      refine ⟨hproc, ?_⟩
      intro hrf
      rw [← h1] at hrf
      simp at hrf
    · rename_i hres
      simp only [Option.some.injEq, Prod.mk.injEq, ValidateOutcome.ok.injEq] at h
      obtain ⟨h1, h2, h3⟩ := h
      subst h2
      exact ⟨hproc, fun _ => h1.symm⟩

/-- C1 witness: the C1 run (whose first item fails) still has every queue item
processed, and its returned response is not a failure taken from anywhere but
the last-processed item. -/
theorem claim_c1_witness :
    (∀ it ∈ (outQueue vOutC1).items, it.validationResponse.isSome = true)
    ∧ ((outResp vOutC1).result = false → outResp vOutC1 = (outQueue vOutC1).getResult) :=
  claim_c1_loop_continues selfDelC1 strictDelOk tableC1 5 "A"
    (outResp vOutC1) (outQueue vOutC1) (outTrace vOutC1) (by rfl)

/-- C5 (amended): within one `Validator.validate` call, `siopDid` is set to
the siop item's response DID after EVERY siop validation — successful or
failed — and every verifiableCredential or verifiablePresentation item
processed later is invoked with the DID of the most recent siop response
before it (`undefined` if there was none). -/
theorem claim_c5_siop_did_propagation
    (selfDel strictDel : ValidationResponse → String → ValidationResponse)
    (table : TokenType → Option TokenValidatorStub) (fuel : Nat) (token : String)
    (out : ValidateOutcome) (q : ValidationQueue) (tr : List Invocation)
    (h : Validator.validate selfDel strictDel table fuel token = some (out, q, tr))
    (k : Nat) (hk : k < tr.length)
    (hty : (tr.get ⟨k, hk⟩).tokenType = TokenType.verifiableCredential ∨
           (tr.get ⟨k, hk⟩).tokenType = TokenType.verifiablePresentation) :
    (tr.get ⟨k, hk⟩).siopDidArg = lastSiopDid none (tr.take k) :=
  validate_trace_siopDid selfDel strictDel table fuel token out q tr h k hk hty

/-- C5 witness: in the C5 run the VC invocation at position 1 received exactly
the DID recorded by the (failed) siop invocation before it. -/
theorem claim_c5_witness :
    ((outTrace vOutC5).get ⟨1, by decide⟩).siopDidArg
      = lastSiopDid none ((outTrace vOutC5).take 1) :=
  claim_c5_siop_did_propagation selfDelC5 strictDelOk tableC5 5 "S"
    (ValidateOutcome.ok (outResp vOutC5)) (outQueue vOutC5) (outTrace vOutC5)
    (by rfl) 1 (by decide) (Or.inl (by rfl))

/-- C10: when a verifiableCredential or verifiablePresentation item is
dequeued before any siop item has been processed in the same call, its
validator is invoked with `undefined` (`none`) as the `siopDid` argument —
the non-null assertion `siopDid!` does not guard the no-prior-SIOP case. -/
theorem claim_c10_no_prior_siop
    (selfDel strictDel : ValidationResponse → String → ValidationResponse)
    (table : TokenType → Option TokenValidatorStub) (fuel : Nat) (token : String)
    (out : ValidateOutcome) (q : ValidationQueue) (tr : List Invocation)
    (h : Validator.validate selfDel strictDel table fuel token = some (out, q, tr))
    (k : Nat) (hk : k < tr.length)
    (hty : (tr.get ⟨k, hk⟩).tokenType = TokenType.verifiableCredential ∨
           (tr.get ⟨k, hk⟩).tokenType = TokenType.verifiablePresentation)
    (hnosiop : ∀ e ∈ tr.take k, e.tokenType ≠ TokenType.siop) :
    (tr.get ⟨k, hk⟩).siopDidArg = none := by
  have hmain := validate_trace_siopDid selfDel strictDel table fuel token out q tr h k hk hty
  rw [lastSiopDid_no_siop (tr.take k) none hnosiop] at hmain
  exact hmain

/-- C10 witness: in the C10 run the first item is a VC and its validator was
invoked with `none` as `siopDid`. -/
theorem claim_c10_witness :
    ((outTrace vOutC10).get ⟨0, by decide⟩).siopDidArg = none :=
  claim_c10_no_prior_siop selfDelC10 strictDelOk tableC10 5 "V"
    (ValidateOutcome.ok (outResp vOutC10)) (outQueue vOutC10) (outTrace vOutC10)
    (by rfl) 0 (by decide) (Or.inl (by rfl)) (by simp)

/-- C6: when every queue item validates successfully, `Validator.validate`
returns `result = true`, `status = 200`, and an aggregated result whose
subject DID is the first siop item's response DID when one (truthy) exists,
otherwise the first verifiableCredential item's decoded `aud` field when
truthy, otherwise the empty string; whose `idTokens` and
`verifiableCredentials` collect the decoded payloads of all items of those
types; and whose `selfIssued` is the first selfIssued item's decoded payload
when present. -/
theorem claim_c6_success_aggregation
    (selfDel strictDel : ValidationResponse → String → ValidationResponse)
    (table : TokenType → Option TokenValidatorStub) (fuel : Nat) (token : String)
    (r : ValidationResponse) (q : ValidationQueue) (tr : List Invocation)
    (h : Validator.validate selfDel strictDel table fuel token = some (ValidateOutcome.ok r, q, tr))
    (hsucc : ∀ it ∈ q.items, Option.all (fun resp => resp.result) it.validationResponse = true) :
    r.result = true ∧ r.status = 200 ∧
    r.validationResult = some
      { did := if jsTruthy (firstSiopDid q) then (firstSiopDid q).getD ""
               else if jsTruthy (firstVcAud q) then (firstVcAud q).getD "" else "",
        verifiableCredentials := decodedOfType TokenType.verifiableCredential q,
        idTokens := decodedOfType TokenType.idToken q,
        selfIssued := ((decodedOfType TokenType.selfIssued q).head?).join } := by
  unfold Validator.validate at h
  split at h
  · exact absurd h (by simp)
  · exact absurd h (by simp)
  · rename_i q0 tr0 hl
    have hprops := validateLoop_props selfDel strictDel table fuel _ none _ _ _ hl
    have hnext := hprops.1 rfl
    have hproc := getNextTokenIdx_none_processed q0 hnext
    have hne : q0.items ≠ [] := by
      have hlen1 : 1 ≤ q0.items.length := by
        simpa [ValidationQueue.addToken] using hprops.2.1
      intro hempty
      rw [hempty] at hlen1
      simp at hlen1
    split at h
    · rename_i hres
      simp only [Option.some.injEq, Prod.mk.injEq, ValidateOutcome.ok.injEq] at h
      obtain ⟨h1, h2, h3⟩ := h
      subst h2
      rw [← h1]
      refine ⟨rfl, rfl, ?_⟩
      rw [setValidationResult_spec]
    · rename_i hres
      exfalso
      simp only [Option.some.injEq, Prod.mk.injEq, ValidateOutcome.ok.injEq] at h
      obtain ⟨h1, h2, h3⟩ := h
      subst h2
      exact hres (getResult_result_true q0 hne hproc hsucc)

/-- C6 witness: the all-success C6 run returns status 200 with the aggregated
subject DID "did:alice" and the collected decoded payloads. -/
theorem claim_c6_witness :
    rC6.result = true ∧ rC6.status = 200 ∧
    rC6.validationResult = some
      { did := if jsTruthy (firstSiopDid qC6) then (firstSiopDid qC6).getD ""
               else if jsTruthy (firstVcAud qC6) then (firstVcAud qC6).getD "" else "",
        verifiableCredentials := decodedOfType TokenType.verifiableCredential qC6,
        idTokens := decodedOfType TokenType.idToken qC6,
        selfIssued := ((decodedOfType TokenType.selfIssued qC6).head?).join } :=
  claim_c6_success_aggregation selfDelC6 strictDelOk tableC6 5 "P" rC6 qC6 trC6
    (by rfl) (by decide)
